import Mathlib

/-!
Verification of `password_system.py`: a shallow embedding of the password
value type, policy validation, analyzers and the generator, with theorems
about the properties the system is documented to have.

Passwords are modelled as lists of characters.  The Python character-class
tests (`str.isupper`, `str.islower`, `str.isdigit`, `c in string.punctuation`)
are modelled with their ASCII semantics, which is the character range the
system's own constants and generator draw from.
-/

/-- The constant `string.ascii_lowercase` from the Python `string` module. -/
def ascii_lowercase : List Char := "abcdefghijklmnopqrstuvwxyz".toList

/-- The constant `string.ascii_uppercase`. -/
def ascii_uppercase : List Char := "ABCDEFGHIJKLMNOPQRSTUVWXYZ".toList

/-- The constant `string.digits`. -/
def digits : List Char := "0123456789".toList

/-- The constant `string.punctuation`: the 32 ASCII punctuation characters. -/
def punctuation : List Char :=
  "!\"#$%&\x27()*+,-./:;<=>?@[\\]^_\x60\x7b|\x7d~".toList

/-- The constant `string.ascii_letters` (lowercase followed by uppercase). -/
def ascii_letters : List Char := ascii_lowercase ++ ascii_uppercase

/-- The `Password` class: an immutable wrapper around the raw string. -/
structure Password where
  value : List Char
deriving DecidableEq

/-- Errors raised by `Password.__init__` (the `TypeError` for non-string
input is unrepresentable in this typed embedding). -/
inductive PasswordError where
  | EmptyPasswordError
deriving DecidableEq

/-- `Password.__init__`: rejects the empty string, otherwise stores the
value. -/
def Password.init (value : List Char) : Except PasswordError Password :=
  if value = [] then .error .EmptyPasswordError
  else .ok ⟨value⟩

/-- The `length` property: `len(self._value)`. -/
def Password.length (pw : Password) : Nat := pw.value.length

/-- The `masked` property: `"*" * len(self._value)`. -/
def Password.masked (pw : Password) : List Char :=
  List.replicate pw.value.length '*'

/-- The `contains_uppercase` property: `any(c.isupper() for c in value)`. -/
def Password.contains_uppercase (pw : Password) : Bool :=
  pw.value.any Char.isUpper

/-- The `contains_lowercase` property: `any(c.islower() for c in value)`. -/
def Password.contains_lowercase (pw : Password) : Bool :=
  pw.value.any Char.isLower

/-- The `contains_digit` property: `any(c.isdigit() for c in value)`. -/
def Password.contains_digit (pw : Password) : Bool :=
  pw.value.any Char.isDigit

/-- The `contains_special` property: `any(c in string.punctuation for c in value)`. -/
def Password.contains_special (pw : Password) : Bool :=
  pw.value.any (fun c => punctuation.contains c)

/-- Values appearing in an analysis result mapping. -/
inductive AVal where
  | str : String → AVal
  | chars : List Char → AVal
  | nat : Nat → AVal
  | real : ℝ → AVal
  | bool : Bool → AVal

namespace BasicPasswordAnalyzer

/-- `BasicPasswordAnalyzer.COMMON_PASSWORDS`. -/
def COMMON_PASSWORDS : List (List Char) :=
  ["password".toList, "123456".toList, "qwerty".toList, "abc123".toList]

/-- The pool size accumulated inside `BasicPasswordAnalyzer.entropy`. -/
def pool (pw : Password) : Nat :=
  (if pw.contains_lowercase then 26 else 0) +
  (if pw.contains_uppercase then 26 else 0) +
  (if pw.contains_digit then 10 else 0) +
  (if pw.contains_special then punctuation.length else 0)

/-- Rounding to two decimal places, as `round(x, 2)` does. -/
noncomputable def round2 (x : ℝ) : ℝ := (round (x * 100) : ℤ) / 100

/-- `BasicPasswordAnalyzer.entropy`:
`0.0` when the pool is empty, else `round(length * log2(pool), 2)`. -/
noncomputable def entropy (pw : Password) : ℝ :=
  if pool pw = 0 then 0.0
  else round2 ((pw.length : ℝ) * Real.logb 2 (pool pw : ℝ))

/-- The score summed inside `BasicPasswordAnalyzer.strength`. -/
def score (pw : Password) : Nat :=
  [decide (8 ≤ pw.length),
   pw.contains_lowercase,
   pw.contains_uppercase,
   pw.contains_digit,
   pw.contains_special].count true

/-- `BasicPasswordAnalyzer.strength`. -/
def strength (pw : Password) : String :=
  if score pw ≤ 2 then "Weak"
  else if score pw ≤ 4 then "Medium"
  else "Strong"

/-- The `is_common` entry of `BasicPasswordAnalyzer.analyze`:
`self._password.value.lower() in self.COMMON_PASSWORDS`. -/
def is_common (pw : Password) : Bool :=
  COMMON_PASSWORDS.contains (pw.value.map Char.toLower)

/-- `BasicPasswordAnalyzer.analyze`: the ordered result mapping. -/
noncomputable def analyze (pw : Password) : List (String × AVal) :=
  [("password", .chars pw.masked),
   ("length", .nat pw.length),
   ("entropy", .real (entropy pw)),
   ("strength", .str (strength pw)),
   ("is_common", .bool (is_common pw))]

end BasicPasswordAnalyzer

namespace AdvancedPasswordAnalyzer

/-- `AdvancedPasswordAnalyzer.has_repeated_patterns`: nested loops over
pattern sizes `1 .. n // 2` and start offsets `0 .. n - 2 * size`,
comparing each block with the adjacent block of the same size. -/
def has_repeated_patterns (pw : Password) : Bool :=
  let s := pw.value
  let n := s.length
  (List.range' 1 (n / 2)).any fun size =>
    (List.range (n - 2 * size + 1)).any fun start =>
      ((s.drop start).take size) == ((s.drop (start + size)).take size)

/-- `AdvancedPasswordAnalyzer.analyze`: the basic result with
`has_repeats` appended. -/
noncomputable def analyze (pw : Password) : List (String × AVal) :=
  BasicPasswordAnalyzer.analyze pw ++
    [("has_repeats", AVal.bool (has_repeated_patterns pw))]

end AdvancedPasswordAnalyzer

/-- The `PasswordPolicy` class and its defaults. -/
structure PasswordPolicy where
  min_length : Nat := 8
  require_upper : Bool := true
  require_lower : Bool := true
  require_digit : Bool := true
  require_special : Bool := true
deriving DecidableEq

/-- `PasswordPolicy.validate`: `all([...])` over the five rule checks. -/
def PasswordPolicy.validate (p : PasswordPolicy) (pw : Password) : Bool :=
  [decide (p.min_length ≤ pw.length),
   !p.require_upper || pw.contains_uppercase,
   !p.require_lower || pw.contains_lowercase,
   !p.require_digit || pw.contains_digit,
   !p.require_special || pw.contains_special].all id

/-- One iteration's worth of outcomes of the random draws inside
`PasswordGenerator.generate`: the four seeded class characters, the padding
characters from `random.choices(..., k=length-4)`, and the order the
in-place `random.shuffle` produced. -/
structure Draw where
  su : Char
  sl : Char
  sd : Char
  sp : Char
  pad : List Char
  shuffled : List Char
deriving DecidableEq

/-- The candidate list `chars` built in one loop iteration, before the
shuffle. -/
def Draw.chars (d : Draw) : List Char := [d.su, d.sl, d.sd, d.sp] ++ d.pad

/-- A draw the Python random module can actually produce for a requested
`length`: seeds from their classes, padding of size `length - 4` from the
letters-digits-punctuation pool (`random.choices` with a negative `k`
returns the empty list, matching truncated subtraction), and a shuffle that
permutes exactly the drawn characters. -/
def Draw.wf (length : Nat) (d : Draw) : Bool :=
  ascii_uppercase.contains d.su &&
  ascii_lowercase.contains d.sl &&
  digits.contains d.sd &&
  punctuation.contains d.sp &&
  (d.pad.length == length - 4) &&
  d.pad.all (fun c => (ascii_letters ++ digits ++ punctuation).contains c) &&
  d.shuffled.isPerm d.chars

/-- The error raised by `PasswordGenerator.generate` when the requested
length is below the policy minimum (`ValueError("Length below policy minimum")`,
the spec's `PolicyViolationError`). -/
inductive GenError where
  | PolicyViolationError
deriving DecidableEq

/-- The `while True` retry loop of `PasswordGenerator.generate`, applied to
the stream of per-iteration draw outcomes; `none` means the supplied stream
was exhausted before a candidate validated. -/
def genLoop (policy : PasswordPolicy) : List Draw → Option Password
  | [] => none
  | d :: ds =>
    if policy.validate ⟨d.shuffled⟩ then some ⟨d.shuffled⟩
    else genLoop policy ds

/-- `PasswordGenerator.generate`: rejects a length below the policy
minimum before drawing anything, otherwise runs the retry loop on the
draw outcomes. -/
def generate (policy : PasswordPolicy) (length : Nat) (ds : List Draw) :
    Except GenError (Option Password) :=
  if length < policy.min_length then .error .PolicyViolationError
  else .ok (genLoop policy ds)

-- quick sanity checks on the embedding (kept as anonymous examples)
example : AdvancedPasswordAnalyzer.has_repeated_patterns ⟨"abab".toList⟩ = true := by decide
example : AdvancedPasswordAnalyzer.has_repeated_patterns ⟨"abcd".toList⟩ = false := by decide
example : BasicPasswordAnalyzer.strength ⟨"Abc123!@".toList⟩ = "Strong" := by decide
example : BasicPasswordAnalyzer.is_common ⟨"PassWord".toList⟩ = true := by decide
example : punctuation.length = 32 := by decide

/-- Characterisation of `PasswordPolicy.validate` as a conjunction of the
length bound and one implication per requirement flag. -/
theorem validate_eq_true_iff (p : PasswordPolicy) (pw : Password) :
    p.validate pw = true ↔
      (p.min_length ≤ pw.length ∧
       (p.require_upper = true → pw.contains_uppercase = true) ∧
       (p.require_lower = true → pw.contains_lowercase = true) ∧
       (p.require_digit = true → pw.contains_digit = true) ∧
       (p.require_special = true → pw.contains_special = true)) := by
  have hb : ∀ a b : Bool, ((!a || b) = true) ↔ (a = true → b = true) := by
    decide
  simp only [PasswordPolicy.validate, List.all_cons, List.all_nil, id_eq,
    Bool.and_eq_true, Bool.and_true, decide_eq_true_eq, hb]

/-- C2: `policy.validate(pw)` holds iff the password is at least
`min_length` long and every enabled class requirement's predicate holds;
a disabled requirement imposes no constraint. -/
theorem C2_validate_iff (p : PasswordPolicy) (pw : Password) :
    p.validate pw = true ↔
      (p.min_length ≤ pw.length ∧
       (p.require_upper = true → pw.contains_uppercase = true) ∧
       (p.require_lower = true → pw.contains_lowercase = true) ∧
       (p.require_digit = true → pw.contains_digit = true) ∧
       (p.require_special = true → pw.contains_special = true)) :=
  validate_eq_true_iff p pw

/-- C3: `has_repeated_patterns` is true exactly when some block of size
`1 ≤ s ≤ n / 2` starting at some offset `i ≤ n - 2 s` equals the adjacent
block of the same size; in particular it holds for "abab" and fails for
"abcd". -/
theorem C3_has_repeats_iff :
    (∀ pw : Password,
      AdvancedPasswordAnalyzer.has_repeated_patterns pw = true ↔
        ∃ s, 1 ≤ s ∧ s ≤ pw.length / 2 ∧
          ∃ i, i ≤ pw.length - 2 * s ∧
            (pw.value.drop i).take s = (pw.value.drop (i + s)).take s) ∧
    AdvancedPasswordAnalyzer.has_repeated_patterns ⟨"abab".toList⟩ = true ∧
    AdvancedPasswordAnalyzer.has_repeated_patterns ⟨"abcd".toList⟩ = false := by
  refine ⟨fun pw => ?_, by decide, by decide⟩
  simp only [AdvancedPasswordAnalyzer.has_repeated_patterns, List.any_eq_true,
    List.mem_range'_1, List.mem_range, beq_iff_eq, Password.length]
  constructor
  · rintro ⟨s, ⟨h1, h2⟩, i, h3, he⟩
    exact ⟨s, h1, by omega, i, by omega, he⟩
  · rintro ⟨s, h1, h2, i, h3, he⟩
    exact ⟨s, ⟨h1, by omega⟩, i, by omega, he⟩

/-- C5: the strength score counts the satisfied conditions among length
at least 8 and the four class predicates, and the label is Weak for score
at most 2, Medium for score 3 or 4, Strong for score 5; "Abc123!@" is
Strong. -/
theorem C5_strength :
    (∀ pw : Password,
      BasicPasswordAnalyzer.score pw =
        (if 8 ≤ pw.length then 1 else 0) +
        (if pw.contains_lowercase then 1 else 0) +
        (if pw.contains_uppercase then 1 else 0) +
        (if pw.contains_digit then 1 else 0) +
        (if pw.contains_special then 1 else 0)) ∧
    (∀ pw : Password,
      BasicPasswordAnalyzer.strength pw =
        if BasicPasswordAnalyzer.score pw ≤ 2 then "Weak"
        else if BasicPasswordAnalyzer.score pw = 3 ∨
                BasicPasswordAnalyzer.score pw = 4 then "Medium"
        else "Strong") ∧
    BasicPasswordAnalyzer.strength ⟨"Abc123!@".toList⟩ = "Strong" := by
  refine ⟨fun pw => ?_, fun pw => ?_, by decide⟩
  · by_cases h1 : 8 ≤ pw.length <;>
      cases h2 : pw.contains_lowercase <;>
      cases h3 : pw.contains_uppercase <;>
      cases h4 : pw.contains_digit <;>
      cases h5 : pw.contains_special <;>
      simp [BasicPasswordAnalyzer.score, h1, h2, h3, h4, h5,
        List.count_cons, List.count_nil]
  · by_cases hA : BasicPasswordAnalyzer.score pw ≤ 2
    · simp [BasicPasswordAnalyzer.strength, hA]
    · by_cases hB : BasicPasswordAnalyzer.score pw ≤ 4
      · have hC : BasicPasswordAnalyzer.score pw = 3 ∨
            BasicPasswordAnalyzer.score pw = 4 := by omega
        simp [BasicPasswordAnalyzer.strength, hA, hB, hC]
      · have hC : ¬(BasicPasswordAnalyzer.score pw = 3 ∨
            BasicPasswordAnalyzer.score pw = 4) := by omega
        simp [BasicPasswordAnalyzer.strength, hA, hB, hC]

/-- C7: constructing a Password from the empty string fails with the
empty-password error, and from any non-empty string succeeds with the
expected length and an all-mask masked form of the same length. -/
theorem C7_init (s : List Char) (hs : s ≠ []) :
    Password.init [] = .error PasswordError.EmptyPasswordError ∧
    Password.init s = .ok ⟨s⟩ ∧
    Password.length ⟨s⟩ = s.length ∧
    (Password.masked ⟨s⟩).length = s.length ∧
    ∀ c ∈ Password.masked ⟨s⟩, c = '*' := by
  refine ⟨rfl, by simp [Password.init, hs], rfl, ?_, ?_⟩
  · simp [Password.masked]
  · intro c hc
    exact List.eq_of_mem_replicate hc

/-- C4: entropy is 0.0 when no character class is present, and otherwise
is the length times the base-2 logarithm of the summed class sizes
(26 + 26 + 10 + 32 for the classes present), rounded to two decimals. -/
theorem C4_entropy (pw : Password) :
    BasicPasswordAnalyzer.entropy pw =
      if pw.contains_uppercase = false ∧ pw.contains_lowercase = false ∧
         pw.contains_digit = false ∧ pw.contains_special = false then 0.0
      else
        BasicPasswordAnalyzer.round2
          ((pw.length : ℝ) *
            Real.logb 2
              ((((if pw.contains_uppercase then 26 else 0) +
                 (if pw.contains_lowercase then 26 else 0) +
                 (if pw.contains_digit then 10 else 0) +
                 (if pw.contains_special then 32 else 0) : Nat) : ℝ))) := by
  have hp : punctuation.length = 32 := by decide
  cases hu : pw.contains_uppercase <;>
    cases hl : pw.contains_lowercase <;>
    cases hd : pw.contains_digit <;>
    cases hs : pw.contains_special <;>
    simp [BasicPasswordAnalyzer.entropy, BasicPasswordAnalyzer.pool,
      hu, hl, hd, hs, hp]

/-- C8: the basic analysis result has exactly the five keys password,
length, entropy, strength, is_common in insertion order and never the key
has_repeats; the advanced result appends has_repeats after them. -/
theorem C8_analysis_keys (pw : Password) :
    (BasicPasswordAnalyzer.analyze pw).map Prod.fst =
      ["password", "length", "entropy", "strength", "is_common"] ∧
    "has_repeats" ∉ (BasicPasswordAnalyzer.analyze pw).map Prod.fst ∧
    (AdvancedPasswordAnalyzer.analyze pw).map Prod.fst =
      ["password", "length", "entropy", "strength", "is_common"] ++
        ["has_repeats"] := by
  refine ⟨rfl, ?_, rfl⟩
  intro hmem
  simp [BasicPasswordAnalyzer.analyze] at hmem

/-- C9: the advanced analysis restricted to the five basic keys is,
entry for entry and in the same order, the basic analysis of the same
password. -/
theorem C9_advanced_refines_basic (pw : Password) :
    (AdvancedPasswordAnalyzer.analyze pw).filter
        (fun kv =>
          (["password", "length", "entropy", "strength",
            "is_common"] : List String).contains kv.1) =
      BasicPasswordAnalyzer.analyze pw := by
  rfl

/-- C6: requesting a length below the policy minimum fails with the
policy-violation error regardless of what the random draws would have
produced, so no candidate is ever built. -/
theorem C6_generate_below_min (p : PasswordPolicy) (length : Nat)
    (ds : List Draw) (h : length < p.min_length) :
    generate p length ds = .error .PolicyViolationError := by
  simp [generate, h]

/-- Witness for C6: a policy with minimum 8 and requested length 5. -/
theorem C6_generate_below_min_witness :
    5 < (PasswordPolicy.mk 8 true true true true).min_length ∧
    generate (PasswordPolicy.mk 8 true true true true) 5 [] =
      .error .PolicyViolationError :=
  ⟨by decide, C6_generate_below_min (PasswordPolicy.mk 8 true true true true)
    5 [] (by decide)⟩

/-- Witness for C7 at the concrete input "a". -/
theorem C7_init_witness :
    Password.init [] = .error PasswordError.EmptyPasswordError ∧
    Password.init ['a'] = .ok ⟨['a']⟩ ∧
    Password.length ⟨['a']⟩ = (['a'] : List Char).length ∧
    (Password.masked ⟨['a']⟩).length = (['a'] : List Char).length ∧
    ∀ c ∈ Password.masked ⟨['a']⟩, c = '*' :=
  C7_init ['a'] (by decide)

/-- Every character of `string.ascii_uppercase` satisfies the uppercase
predicate. -/
theorem mem_ascii_uppercase_isUpper : ∀ c ∈ ascii_uppercase, c.isUpper = true := by
  decide

/-- Every character of `string.ascii_lowercase` satisfies the lowercase
predicate. -/
theorem mem_ascii_lowercase_isLower : ∀ c ∈ ascii_lowercase, c.isLower = true := by
  decide

/-- Every character of `string.digits` satisfies the digit predicate. -/
theorem mem_digits_isDigit : ∀ c ∈ digits, c.isDigit = true := by
  decide

/-- Unpacking of a well-formed draw: the shuffled list is a permutation of
the drawn characters, it has `4 + (length - 4)` characters, and the four
seeds come from their classes and survive into the shuffled list. -/
theorem Draw.wf_spec (length : Nat) (d : Draw) (h : d.wf length = true) :
    d.shuffled.length = 4 + (length - 4) ∧
    d.su ∈ d.shuffled ∧ d.sl ∈ d.shuffled ∧
    d.sd ∈ d.shuffled ∧ d.sp ∈ d.shuffled ∧
    d.su ∈ ascii_uppercase ∧ d.sl ∈ ascii_lowercase ∧
    d.sd ∈ digits ∧ d.sp ∈ punctuation := by
  simp only [Draw.wf, Bool.and_eq_true, List.contains, beq_iff_eq] at h
  obtain ⟨⟨⟨⟨⟨⟨hsu, hsl⟩, hsd⟩, hsp⟩, hlen⟩, hpad⟩, hperm⟩ := h
  have hperm2 : d.shuffled.Perm d.chars := List.isPerm_iff.mp hperm
  have hchars : d.chars.length = 4 + d.pad.length := by
    simp [Draw.chars]
    omega
  have hmem : ∀ c ∈ d.chars, c ∈ d.shuffled := fun c hc =>
    (hperm2.mem_iff).mpr hc
  refine ⟨by rw [hperm2.length_eq, hchars, hlen], ?_, ?_, ?_, ?_,
    List.elem_iff.mp hsu, List.elem_iff.mp hsl,
    List.elem_iff.mp hsd, List.elem_iff.mp hsp⟩ <;>
    exact hmem _ (by simp [Draw.chars])

/-- Any candidate built from a well-formed draw for a requested length of
at least 4 that also reaches the policy minimum passes validation. -/
theorem validate_first_candidate (p : PasswordPolicy) (length : Nat)
    (d : Draw) (hwf : d.wf length = true) (hmin : p.min_length ≤ length)
    (h4 : 4 ≤ length) :
    p.validate ⟨d.shuffled⟩ = true := by
  obtain ⟨hlen, hsu, hsl, hsd, hsp, hcu, hcl, hcd, hcp⟩ :=
    Draw.wf_spec length d hwf
  refine (validate_eq_true_iff p ⟨d.shuffled⟩).mpr ⟨?_, ?_, ?_, ?_, ?_⟩
  · show p.min_length ≤ d.shuffled.length
    omega
  · intro _
    exact List.any_eq_true.mpr
      ⟨d.su, hsu, mem_ascii_uppercase_isUpper d.su hcu⟩
  · intro _
    exact List.any_eq_true.mpr
      ⟨d.sl, hsl, mem_ascii_lowercase_isLower d.sl hcl⟩
  · intro _
    exact List.any_eq_true.mpr
      ⟨d.sd, hsd, mem_digits_isDigit d.sd hcd⟩
  · intro _
    exact List.any_eq_true.mpr
      ⟨d.sp, hsp, List.elem_iff.mpr hcp⟩

/-- Soundness of the retry loop: a returned password came from one of the
draws and passed validation. -/
theorem genLoop_eq_some (p : PasswordPolicy) (ds : List Draw)
    (pw : Password) (h : genLoop p ds = some pw) :
    p.validate pw = true ∧ ∃ d ∈ ds, pw = ⟨d.shuffled⟩ := by
  induction ds with
  | nil => simp [genLoop] at h
  | cons d ds ih =>
    by_cases hv : p.validate ⟨d.shuffled⟩ = true
    · simp only [genLoop, hv, if_true, Option.some.injEq] at h
      exact ⟨h ▸ hv, d, by simp, h.symm⟩
    · simp only [genLoop, hv, if_false, Bool.false_eq_true] at h
      obtain ⟨h1, d2, hd2, h3⟩ := ih h
      exact ⟨h1, d2, by simp [hd2], h3⟩

/-- C10: whenever the requested length is at least the policy minimum and
at least 4, the very first candidate built from any well-formed draw
validates, so the retry loop returns on its first iteration. -/
theorem C10_first_iteration (p : PasswordPolicy) (length : Nat)
    (d : Draw) (ds : List Draw) (hwf : d.wf length = true)
    (hmin : p.min_length ≤ length) (h4 : 4 ≤ length) :
    p.validate ⟨d.shuffled⟩ = true ∧
    generate p length (d :: ds) = .ok (some ⟨d.shuffled⟩) := by
  have hv := validate_first_candidate p length d hwf hmin h4
  have hnl : ¬(length < p.min_length) := Nat.not_lt.mpr hmin
  refine ⟨hv, ?_⟩
  simp [generate, hnl, genLoop, hv]

/-- Witness for C10: a concrete well-formed draw for length 12 under the
default policy; the generator returns its shuffled candidate at once. -/
theorem C10_first_iteration_witness :
    Draw.wf 12 ⟨'A', 'a', '0', '!', "bcdefgh1".toList,
      "Aa0!bcdefgh1".toList⟩ = true ∧
    (PasswordPolicy.mk 8 true true true true).min_length ≤ 12 ∧
    4 ≤ 12 ∧
    ((PasswordPolicy.mk 8 true true true true).validate
        ⟨("Aa0!bcdefgh1".toList : List Char)⟩ = true ∧
      generate (PasswordPolicy.mk 8 true true true true) 12
          [⟨'A', 'a', '0', '!', "bcdefgh1".toList, "Aa0!bcdefgh1".toList⟩] =
        .ok (some ⟨"Aa0!bcdefgh1".toList⟩)) :=
  ⟨by decide, by decide, by decide,
    C10_first_iteration (PasswordPolicy.mk 8 true true true true) 12
      ⟨'A', 'a', '0', '!', "bcdefgh1".toList, "Aa0!bcdefgh1".toList⟩ []
      (by decide) (by decide) (by decide)⟩

/-- C1 (amended): a successfully generated password always validates, and
its length is `max(length, 4)`: the four seeded characters plus
`length - 4` padding characters (empty when the request is below 4). -/
theorem C1_generate_result (p : PasswordPolicy) (length : Nat)
    (ds : List Draw) (pw : Password)
    (hwf : ∀ d ∈ ds, d.wf length = true)
    (hgen : generate p length ds = .ok (some pw)) :
    pw.length = max length 4 ∧ p.validate pw = true := by
  by_cases hlt : length < p.min_length
  · simp [generate, hlt] at hgen
  · simp only [generate, hlt, if_false, Except.ok.injEq] at hgen
    obtain ⟨hval, d, hd, hpw⟩ := genLoop_eq_some p ds pw hgen
    obtain ⟨hlen, -⟩ := Draw.wf_spec length d (hwf d hd)
    subst hpw
    refine ⟨?_, hval⟩
    show d.shuffled.length = max length 4
    omega

/-- Witness for C1's amended statement at length 12 under the default
policy. -/
theorem C1_generate_result_witness :
    (∀ d ∈ [(⟨'Z', 'z', '7', '?', "qrstuvw2".toList,
        "Zz7?qrstuvw2".toList⟩ : Draw)], d.wf 12 = true) ∧
    generate (PasswordPolicy.mk 8 true true true true) 12
        [⟨'Z', 'z', '7', '?', "qrstuvw2".toList, "Zz7?qrstuvw2".toList⟩] =
      .ok (some ⟨"Zz7?qrstuvw2".toList⟩) ∧
    (Password.length ⟨"Zz7?qrstuvw2".toList⟩ = max 12 4 ∧
      (PasswordPolicy.mk 8 true true true true).validate
          ⟨"Zz7?qrstuvw2".toList⟩ = true) :=
  ⟨by decide, rfl,
    C1_generate_result (PasswordPolicy.mk 8 true true true true) 12
      [⟨'Z', 'z', '7', '?', "qrstuvw2".toList, "Zz7?qrstuvw2".toList⟩]
      ⟨"Zz7?qrstuvw2".toList⟩ (by decide) rfl⟩

/-- Counterexample to C1 as stated: with a policy of minimum length 1 and
a requested length of 2, a run of the generator (well-formed draws)
returns a four-character password, not a two-character one: the padding
draw `random.choices(..., k=2-4)` is empty and the four seeds remain. -/
theorem C1_counterexample :
    (∀ d ∈ [(⟨'A', 'a', '0', '!', [], "Aa0!".toList⟩ : Draw)],
      d.wf 2 = true) ∧
    (PasswordPolicy.mk 1 true true true true).min_length ≤ 2 ∧
    generate (PasswordPolicy.mk 1 true true true true) 2
        [⟨'A', 'a', '0', '!', [], "Aa0!".toList⟩] =
      .ok (some ⟨"Aa0!".toList⟩) ∧
    Password.length ⟨"Aa0!".toList⟩ ≠ 2 :=
  ⟨by decide, by decide, rfl, by decide⟩
